import Mathlib

/-!
Verification of the Best Manager simulation engine (`run_simulation` in
`web_app.py`).  The engine is a pure function from a decision record
(venue / catering / staffing / risk labels, ticket price, marketing budget)
to an outcome record (attendance, revenue, costs, profit, satisfaction,
score, crowding percentage, cost breakdown).  We embed the Python code
shallowly: the static reference tables become `String → Option` maps, the
float arithmetic becomes exact real arithmetic with `Real.sqrt`, Python
`int()` truncation becomes `pyTrunc`, `np.ceil` becomes `Int.ceil`, and the
dictionary lookups that may raise `KeyError` become an `Option`-returning
`run_simulation`.
-/

namespace BestManager

/-- A venue record: `{'Capacity': _, 'Fixed Cost': _, 'Vibe': _}`. -/
structure VenueOption where
  Capacity : ℚ
  FixedCost : ℚ
  Vibe : ℚ
deriving DecidableEq

/-- A catering record: `{'Cost': _, 'Quality': _}`. -/
structure CateringOption where
  Cost : ℚ
  Quality : ℚ
deriving DecidableEq

/-- A staffing record: `{'Ratio': _, 'CostPer': _}`; `RatioPerHundred` is the
code's `'Ratio'` key (staff per hundred attendees). -/
structure StaffingOption where
  RatioPerHundred : ℚ
  CostPer : ℚ
deriving DecidableEq

/-- A risk record: `{'DemandMult': _, 'SatPenalty': _}`. -/
structure RiskOption where
  DemandMult : ℚ
  SatPenalty : ℚ
deriving DecidableEq

/-- The `VENUES` table of `web_app.py`. -/
def VENUES : String → Option VenueOption
  | "Grand Hall" => some ⟨500, 5000, 8⟩
  | "Tech Hub" => some ⟨1000, 12000, 6⟩
  | "City Center" => some ⟨2000, 25000, 9⟩
  | "Open Grounds" => some ⟨5000, 40000, 7⟩
  | _ => none

/-- The `CATERING` table of `web_app.py`. -/
def CATERING : String → Option CateringOption
  | "Basic Snacks" => some ⟨15, 2⟩
  | "Standard Buffet" => some ⟨35, 6⟩
  | "Premium Gourmet" => some ⟨60, 9⟩
  | _ => none

/-- The `STAFFING` table of `web_app.py`. -/
def STAFFING : String → Option StaffingOption
  | "Skeleton Crew" => some ⟨1, 200⟩
  | "Standard" => some ⟨2, 250⟩
  | "Premium Service" => some ⟨4, 300⟩
  | _ => none

/-- The `RISKS` table of `web_app.py`. -/
def RISKS : String → Option RiskOption
  | "None (Normal)" => some ⟨1, 0⟩
  | "Heavy Rain" => some ⟨7/10, -10⟩
  | "Competitor Event" => some ⟨6/10, 0⟩
  | "Viral Buzz" => some ⟨3/2, 5⟩
  | _ => none

/-- The decision record handed to `run_simulation` (the `inputs` dict). -/
structure Inputs where
  Venue : String
  Catering : String
  Staffing : String
  Price : ℝ
  Marketing : ℝ
  Risk : String

/-- The outcome dict returned by `run_simulation`, with the `'Details'`
sub-dict flattened into the four cost fields. `Crowding` is the crowding
ratio times 100, as in the code. -/
structure Outcome where
  Attendance : ℤ
  Revenue : ℝ
  TotalCost : ℝ
  Profit : ℝ
  Satisfaction : ℝ
  Score : ℝ
  Crowding : ℝ
  VenueCost : ℝ
  MarketingCost : ℝ
  CateringCost : ℝ
  StaffCost : ℝ

/-- `base_demand = max(0, 2000 - 3.5*price + 0.04*marketing + 10*sqrt(marketing))`. -/
noncomputable def base_demand (price marketing : ℝ) : ℝ :=
  max 0 (2000 - 3.5 * price + 0.04 * marketing + 10 * Real.sqrt marketing)

/-- `risk_demand = base_demand * risk['DemandMult']`. -/
noncomputable def risk_demand (risk : RiskOption) (price marketing : ℝ) : ℝ :=
  base_demand price marketing * (risk.DemandMult : ℝ)

/-- Python `int()` applied to a float: truncation toward zero. -/
noncomputable def pyTrunc (x : ℝ) : ℤ :=
  if 0 ≤ x then ⌊x⌋ else ⌈x⌉

/-- `attendance = int(min(risk_demand, venue['Capacity']))`. -/
noncomputable def attendance (venue : VenueOption) (risk : RiskOption)
    (price marketing : ℝ) : ℤ :=
  pyTrunc (min (risk_demand risk price marketing) (venue.Capacity : ℝ))

/-- `num_staff = np.ceil((attendance / 100) * staff['Ratio'])`. -/
noncomputable def num_staff (att : ℤ) (staff : StaffingOption) : ℝ :=
  (⌈(att : ℝ) / 100 * (staff.RatioPerHundred : ℝ)⌉ : ℤ)

/-- `staff_cost = num_staff * staff['CostPer']`. -/
noncomputable def staff_cost (att : ℤ) (staff : StaffingOption) : ℝ :=
  num_staff att staff * (staff.CostPer : ℝ)

/-- `catering_cost = attendance * cat['Cost']`. -/
noncomputable def catering_cost (att : ℤ) (cat : CateringOption) : ℝ :=
  (att : ℝ) * (cat.Cost : ℝ)

/-- `total_cost = venue_cost + marketing_cost + catering_cost + staff_cost`. -/
noncomputable def total_cost (venue : VenueOption) (cat : CateringOption)
    (staff : StaffingOption) (att : ℤ) (marketing : ℝ) : ℝ :=
  (venue.FixedCost : ℝ) + marketing + catering_cost att cat + staff_cost att staff

/-- `crowding = attendance / venue['Capacity'] if venue['Capacity'] > 0 else 0`. -/
noncomputable def crowding (venue : VenueOption) (att : ℤ) : ℝ :=
  if (venue.Capacity : ℝ) > 0 then (att : ℝ) / (venue.Capacity : ℝ) else 0

/-- `crowding_penalty = 15 if crowding > 0.9 else 0`. -/
noncomputable def crowding_penalty (c : ℝ) : ℝ :=
  if c > 0.9 then 15 else 0

/-- The satisfaction base `venue['Vibe']*3.3 + cat['Quality']*3.3 + staff['Ratio']*8`. -/
noncomputable def sat_base (venue : VenueOption) (cat : CateringOption)
    (staff : StaffingOption) : ℝ :=
  (venue.Vibe : ℝ) * 3.3 + (cat.Quality : ℝ) * 3.3 + (staff.RatioPerHundred : ℝ) * 8

/-- The satisfaction value before the final clamp:
base minus crowding penalty plus `risk['SatPenalty']`. -/
noncomputable def sat_pre (venue : VenueOption) (cat : CateringOption)
    (staff : StaffingOption) (risk : RiskOption) (att : ℤ) : ℝ :=
  sat_base venue cat staff - crowding_penalty (crowding venue att) + (risk.SatPenalty : ℝ)

/-- `sat_score = min(100, max(0, sat_score))` after the additions. -/
noncomputable def sat_score (venue : VenueOption) (cat : CateringOption)
    (staff : StaffingOption) (risk : RiskOption) (att : ℤ) : ℝ :=
  min 100 (max 0 (sat_pre venue cat staff risk att))

/-- The spec's profit component of the score: `clamp(profit, 0, +inf)/200000*50`. -/
noncomputable def score_profit_component (p : ℝ) : ℝ :=
  max 0 p / 200000 * 50

/-- The body of `run_simulation` after the four labels have been resolved:
builds the returned outcome dict from the resolved records, the ticket price
and the marketing budget. -/
noncomputable def simulate (venue : VenueOption) (cat : CateringOption)
    (staff : StaffingOption) (risk : RiskOption) (price marketing : ℝ) : Outcome :=
  let att : ℤ := attendance venue risk price marketing
  { Attendance := att
    Revenue := (att : ℝ) * price
    TotalCost := total_cost venue cat staff att marketing
    Profit := (att : ℝ) * price - total_cost venue cat staff att marketing
    Satisfaction := sat_score venue cat staff risk att
    Score := max 0 ((att : ℝ) * price - total_cost venue cat staff att marketing)
      / 200000 * 50 + sat_score venue cat staff risk att * 0.5
    Crowding := crowding venue att * 100
    VenueCost := (venue.FixedCost : ℝ)
    MarketingCost := marketing
    CateringCost := catering_cost att cat
    StaffCost := staff_cost att staff }

/-- `run_simulation`: resolves the four labels against their tables (a missing
label raises `KeyError` in Python, modelled as `none`, produced before any of
the arithmetic runs) and otherwise computes the outcome record. -/
noncomputable def run_simulation (inputs : Inputs) : Option Outcome :=
  match VENUES inputs.Venue, CATERING inputs.Catering,
      STAFFING inputs.Staffing, RISKS inputs.Risk with
  | some venue, some cat, some staff, some risk =>
      some (simulate venue cat staff risk inputs.Price inputs.Marketing)
  | _, _, _, _ => none

/-- The decision of the spec's worked scenario: City Center, Standard Buffet,
Standard staffing, no risk, price 250, marketing 20000. -/
noncomputable def cityInputs : Inputs :=
  ⟨"City Center", "Standard Buffet", "Standard", 250, 20000, "None (Normal)"⟩

/-- The outcome the code computes for `cityInputs` (note the score of 119,
from the unsaturated profit component 375000/200000*50 = 93.75). -/
noncomputable def cityOutcome : Outcome :=
  ⟨2000, 500000, 125000, 375000, 50.5, 119, 100, 25000, 20000, 70000, 10000⟩

/-- A decision producing attendance 1 with a staffing ratio of 1: Grand Hall,
Basic Snacks, Skeleton Crew, no risk, price 571, marketing 0 (base demand
`2000 - 3.5*571 = 1.5`, truncated to 1). -/
noncomputable def tinyInputs : Inputs :=
  ⟨"Grand Hall", "Basic Snacks", "Skeleton Crew", 571, 0, "None (Normal)"⟩

/-- The outcome the code computes for `tinyInputs` (attendance 1, one staff
member charged despite only a hundredth of a block of attendees). -/
noncomputable def tinyOutcome : Outcome :=
  ⟨1, 571, 5215, -4644, 41, 20.5, 0.2, 5000, 0, 15, 200⟩

/-- A decision with zero attendance: Grand Hall, Basic Snacks, Skeleton Crew,
no risk, price 600, marketing 0 (base demand `max(0, 2000 - 2100) = 0`). -/
noncomputable def zeroInputs : Inputs :=
  ⟨"Grand Hall", "Basic Snacks", "Skeleton Crew", 600, 0, "None (Normal)"⟩

/-- The outcome the code computes for `zeroInputs`: nobody attends, yet the
venue's fixed cost and the marketing budget are still charged. -/
noncomputable def zeroOutcome : Outcome :=
  ⟨0, 0, 5000, -5000, 41, 20.5, 0, 5000, 0, 0, 0⟩

/-- A decision whose venue label is not in the `VENUES` table. -/
noncomputable def badInputs : Inputs :=
  ⟨"Garage", "Standard Buffet", "Standard", 250, 20000, "None (Normal)"⟩

/-! ### Helper lemmas about the embedding -/

theorem run_simulation_resolve (i : Inputs) (venue : VenueOption)
    (cat : CateringOption) (staff : StaffingOption) (risk : RiskOption)
    (hv : VENUES i.Venue = some venue) (hc : CATERING i.Catering = some cat)
    (hs : STAFFING i.Staffing = some staff) (hr : RISKS i.Risk = some risk) :
    run_simulation i = some (simulate venue cat staff risk i.Price i.Marketing) := by
  unfold run_simulation
  rw [hv, hc, hs, hr]

theorem run_simulation_none_iff (i : Inputs) :
    run_simulation i = none ↔ VENUES i.Venue = none ∨ CATERING i.Catering = none ∨
      STAFFING i.Staffing = none ∨ RISKS i.Risk = none := by
  unfold run_simulation
  rcases hv : VENUES i.Venue with _ | v <;>
    rcases hc : CATERING i.Catering with _ | c <;>
      rcases hs : STAFFING i.Staffing with _ | s <;>
        rcases hr : RISKS i.Risk with _ | r <;> simp

theorem VENUES_facts (s : String) (v : VenueOption) (h : VENUES s = some v) :
    1 ≤ v.Capacity ∧ 0 ≤ v.FixedCost := by
  unfold VENUES at h
  split at h <;> simp_all <;> (rw [← h]; norm_num)

theorem RISKS_facts (s : String) (r : RiskOption) (h : RISKS s = some r) :
    0 ≤ r.DemandMult := by
  unfold RISKS at h
  split at h <;> simp_all <;> (rw [← h]; norm_num)

theorem STAFFING_facts (s : String) (st : StaffingOption) (h : STAFFING s = some st) :
    0 < st.RatioPerHundred ∧ 0 ≤ st.CostPer := by
  unfold STAFFING at h
  split at h <;> simp_all <;> (rw [← h]; norm_num)

theorem base_demand_nonneg (p m : ℝ) : 0 ≤ base_demand p m :=
  le_max_left 0 _

theorem risk_demand_nonneg (risk : RiskOption) (p m : ℝ)
    (h : 0 ≤ risk.DemandMult) : 0 ≤ risk_demand risk p m :=
  mul_nonneg (base_demand_nonneg p m) (by exact_mod_cast h)

theorem attendance_of_capacity_le (venue : VenueOption) (risk : RiskOption)
    (p m : ℝ) (h : (venue.Capacity : ℝ) ≤ risk_demand risk p m)
    (hc : 0 ≤ (venue.Capacity : ℝ)) :
    attendance venue risk p m = ⌊(venue.Capacity : ℝ)⌋ := by
  unfold attendance pyTrunc
  rw [min_eq_right h, if_pos hc]

theorem attendance_of_le_capacity (venue : VenueOption) (risk : RiskOption)
    (p m : ℝ) (h : risk_demand risk p m ≤ (venue.Capacity : ℝ))
    (h0 : 0 ≤ risk_demand risk p m) :
    attendance venue risk p m = ⌊risk_demand risk p m⌋ := by
  unfold attendance pyTrunc
  rw [min_eq_left h, if_pos h0]

theorem run_simulation_some_exists (i : Inputs) (out : Outcome)
    (h : run_simulation i = some out) :
    ∃ (venue : VenueOption) (cat : CateringOption) (staff : StaffingOption)
      (risk : RiskOption), VENUES i.Venue = some venue ∧
        CATERING i.Catering = some cat ∧ STAFFING i.Staffing = some staff ∧
        RISKS i.Risk = some risk ∧
        out = simulate venue cat staff risk i.Price i.Marketing := by
  unfold run_simulation at h
  split at h
  · rename_i v c s r hv hc hs hr
    exact ⟨v, c, s, r, hv, hc, hs, hr, (Option.some_inj.mp h).symm⟩
  · exact absurd h (by simp)

/-! ### Evaluating the three concrete scenarios -/

theorem sqrt20000_ge : (7.5 : ℝ) ≤ Real.sqrt 20000 :=
  (Real.le_sqrt' (by norm_num)).mpr (by norm_num)

theorem risk_demand_city :
    risk_demand ⟨1, 0⟩ 250 20000 = 1925 + 10 * Real.sqrt 20000 := by
  unfold risk_demand base_demand
  rw [max_eq_right (by nlinarith [Real.sqrt_nonneg (20000 : ℝ)])]
  push_cast
  ring

theorem attendance_city : attendance ⟨2000, 25000, 9⟩ ⟨1, 0⟩ 250 20000 = 2000 := by
  rw [attendance_of_capacity_le _ _ _ _ ?_ (by norm_num)]
  · rw [Int.floor_eq_iff]
    push_cast
    norm_num
  · rw [risk_demand_city]
    have h := sqrt20000_ge
    push_cast
    nlinarith

theorem num_staff_city : num_staff 2000 ⟨2, 250⟩ = 40 := by
  unfold num_staff
  rw [show ((2000 : ℤ) : ℝ) / 100 * ((((2 : ℚ)) : ℝ)) = ((40 : ℤ) : ℝ) by push_cast; ring,
    Int.ceil_intCast]
  norm_num

theorem run_simulation_city : run_simulation cityInputs = some cityOutcome := by
  rw [run_simulation_resolve cityInputs ⟨2000, 25000, 9⟩ ⟨35, 6⟩ ⟨2, 250⟩ ⟨1, 0⟩
    rfl rfl rfl rfl]
  norm_num [simulate, attendance_city, cityOutcome, cityInputs, total_cost, catering_cost,
    staff_cost, sat_score, sat_pre, sat_base, crowding, crowding_penalty, num_staff_city,
    Option.some_inj, Outcome.mk.injEq]

theorem risk_demand_tiny : risk_demand ⟨1, 0⟩ 571 0 = 1.5 := by
  unfold risk_demand base_demand
  rw [Real.sqrt_zero, max_eq_right (by norm_num)]
  push_cast
  norm_num

theorem attendance_tiny : attendance ⟨500, 5000, 8⟩ ⟨1, 0⟩ 571 0 = 1 := by
  rw [attendance_of_le_capacity _ _ _ _ (by rw [risk_demand_tiny]; push_cast; norm_num)
    (by rw [risk_demand_tiny]; norm_num), risk_demand_tiny, Int.floor_eq_iff]
  norm_num

theorem num_staff_tiny : num_staff 1 ⟨1, 200⟩ = 1 := by
  unfold num_staff
  rw [show (⌈((1 : ℤ) : ℝ) / 100 * (((1 : ℚ)) : ℝ)⌉ : ℤ) = 1 from
    Int.ceil_eq_iff.mpr (by constructor <;> push_cast <;> norm_num)]
  norm_num

theorem run_simulation_tiny : run_simulation tinyInputs = some tinyOutcome := by
  rw [run_simulation_resolve tinyInputs ⟨500, 5000, 8⟩ ⟨15, 2⟩ ⟨1, 200⟩ ⟨1, 0⟩
    rfl rfl rfl rfl]
  norm_num [simulate, attendance_tiny, tinyOutcome, tinyInputs, total_cost, catering_cost,
    staff_cost, sat_score, sat_pre, sat_base, crowding, crowding_penalty, num_staff_tiny,
    Option.some_inj, Outcome.mk.injEq]

theorem risk_demand_zero : risk_demand ⟨1, 0⟩ 600 0 = 0 := by
  unfold risk_demand base_demand
  rw [Real.sqrt_zero, max_eq_left (by norm_num)]
  norm_num

theorem attendance_zero : attendance ⟨500, 5000, 8⟩ ⟨1, 0⟩ 600 0 = 0 := by
  rw [attendance_of_le_capacity _ _ _ _ (by rw [risk_demand_zero]; push_cast; norm_num)
    (by rw [risk_demand_zero]), risk_demand_zero]
  norm_num

theorem num_staff_zero (st : StaffingOption) : num_staff 0 st = 0 := by
  unfold num_staff
  norm_num

theorem run_simulation_zero : run_simulation zeroInputs = some zeroOutcome := by
  rw [run_simulation_resolve zeroInputs ⟨500, 5000, 8⟩ ⟨15, 2⟩ ⟨1, 200⟩ ⟨1, 0⟩
    rfl rfl rfl rfl]
  norm_num [simulate, attendance_zero, zeroOutcome, zeroInputs, total_cost, catering_cost,
    staff_cost, sat_score, sat_pre, sat_base, crowding, crowding_penalty, num_staff_zero,
    Option.some_inj, Outcome.mk.injEq]

/-! ### Claims -/

/-- Claim C1, counterexample: for the decision Venue=City Center,
Catering=Standard Buffet, Staffing=Standard, Risk=None (Normal), price=250,
marketing=20000, the code's score is not 75.25 as the claim's worked scenario
states. -/
theorem claim_C1_counterexample :
    (run_simulation cityInputs).map Outcome.Score ≠ some 75.25 := by
  rw [run_simulation_city]
  norm_num [cityOutcome]

/-- Claim C1, amended: for the decision Venue=City Center, Catering=Standard
Buffet, Staffing=Standard, Risk=None (Normal), price=250, marketing=20000,
evaluate returns attendance=2000, revenue=500000, venueCost=25000,
marketingCost=20000, cateringCost=70000, staffCount=40, staffCost=10000,
totalCost=125000, profit=375000, crowding ratio 100% with penalty 15,
satisfaction=50.5, and score=119.0 (the profit component
375000/200000*50 = 93.75 does not saturate at 50, so the score is not 75.25). -/
theorem claim_C1 :
    run_simulation cityInputs =
        some ⟨2000, 500000, 125000, 375000, 50.5, 119, 100, 25000, 20000, 70000, 10000⟩ ∧
      num_staff 2000 ⟨2, 250⟩ = 40 ∧ crowding_penalty 1 = 15 :=
  ⟨run_simulation_city, num_staff_city, by norm_num [crowding_penalty]⟩

/-- Claim C2: for every valid decision the final score equals
`clamp(profit, 0, +inf)/200000*50 + satisfaction*0.5`; the profit component is
zero for non-positive profit, exactly 50 at profit 200000, keeps growing
linearly above 200000, and the total score is not clamped to [0,100] at the
top end (the City Center scenario reaches score 119). -/
theorem claim_C2 :
    (∀ (i : Inputs) (out : Outcome), run_simulation i = some out →
        out.Score = score_profit_component out.Profit + out.Satisfaction * 0.5) ∧
      (∀ p : ℝ, p ≤ 0 → score_profit_component p = 0) ∧
      score_profit_component 200000 = 50 ∧
      (∀ p q : ℝ, 200000 ≤ p → p ≤ q →
        score_profit_component q - score_profit_component p = (q - p) / 200000 * 50) ∧
      run_simulation cityInputs = some cityOutcome ∧ 100 < cityOutcome.Score := by
  refine ⟨?_, ?_, ?_, ?_, run_simulation_city, by norm_num [cityOutcome]⟩
  · intro i out h
    unfold run_simulation at h
    split at h
    · rw [Option.some_inj] at h
      subst h
      simp [simulate, score_profit_component]
    · exact absurd h (by simp)
  · intro p hp
    unfold score_profit_component
    rw [max_eq_left hp]
    norm_num
  · unfold score_profit_component
    rw [max_eq_right (by norm_num)]
    norm_num
  · intro p q hp hq
    unfold score_profit_component
    rw [max_eq_right (by linarith), max_eq_right (by linarith)]
    ring

/-- Claim C2, witness: the score decomposition instantiated at the City Center
scenario, the zero profit component at -5, and the linear growth between
200000 and 300000. -/
theorem claim_C2_witness :
    cityOutcome.Score = score_profit_component cityOutcome.Profit +
        cityOutcome.Satisfaction * 0.5 ∧
      score_profit_component (-5) = 0 ∧
      score_profit_component 300000 - score_profit_component 200000 =
        (300000 - 200000) / 200000 * 50 :=
  ⟨claim_C2.1 cityInputs cityOutcome run_simulation_city,
    claim_C2.2.1 (-5) (by norm_num),
    claim_C2.2.2.2.1 200000 300000 (by norm_num) (by norm_num)⟩

/-- Claim C3: for every valid decision the returned attendance is an integer
with `0 ≤ attendance ≤ venue.capacity`, and it equals
`floor(min(riskDemand, venue.capacity))` (the truncation toward zero of a
non-negative value, so the venue capacity is never exceeded). -/
theorem claim_C3 (i : Inputs) (venue : VenueOption) (risk : RiskOption)
    (out : Outcome) (hv : VENUES i.Venue = some venue)
    (hr : RISKS i.Risk = some risk) (h : run_simulation i = some out) :
    0 ≤ out.Attendance ∧ (out.Attendance : ℝ) ≤ (venue.Capacity : ℝ) ∧
      out.Attendance = ⌊min (risk_demand risk i.Price i.Marketing) (venue.Capacity : ℝ)⌋ := by
  have hmult := RISKS_facts i.Risk risk hr
  have hcap := (VENUES_facts i.Venue venue hv).1
  have hrd : 0 ≤ risk_demand risk i.Price i.Marketing :=
    risk_demand_nonneg risk _ _ hmult
  have hcap' : (0 : ℝ) ≤ (venue.Capacity : ℝ) := by
    have : (1 : ℝ) ≤ (venue.Capacity : ℝ) := by exact_mod_cast hcap
    linarith
  have hmin : 0 ≤ min (risk_demand risk i.Price i.Marketing) (venue.Capacity : ℝ) :=
    le_min hrd hcap'
  obtain ⟨v, c, s, r, hv2, hc2, hs2, hr2, hout⟩ := run_simulation_some_exists i out h
  rw [hv] at hv2
  rw [hr] at hr2
  rw [Option.some_inj] at hv2 hr2
  subst hv2
  subst hr2
  subst hout
  have hatt : (simulate venue c s risk i.Price i.Marketing).Attendance =
      ⌊min (risk_demand risk i.Price i.Marketing) (venue.Capacity : ℝ)⌋ := by
    simp only [simulate]
    unfold attendance pyTrunc
    rw [if_pos hmin]
  refine ⟨?_, ?_, hatt⟩
  · rw [hatt]
    exact Int.floor_nonneg.mpr hmin
  · rw [hatt]
    calc ((⌊min (risk_demand risk i.Price i.Marketing) (venue.Capacity : ℝ)⌋ : ℝ))
        ≤ min (risk_demand risk i.Price i.Marketing) (venue.Capacity : ℝ) :=
          Int.floor_le _
      _ ≤ (venue.Capacity : ℝ) := min_le_right _ _

/-- Claim C3, witness: the attendance bounds instantiated at the City Center
scenario (attendance 2000 equals the capacity floor). -/
theorem claim_C3_witness :
    0 ≤ cityOutcome.Attendance ∧
      (cityOutcome.Attendance : ℝ) ≤ (((2000 : ℚ)) : ℝ) ∧
      cityOutcome.Attendance =
        ⌊min (risk_demand ⟨1, 0⟩ cityInputs.Price cityInputs.Marketing)
          (((2000 : ℚ)) : ℝ)⌋ :=
  claim_C3 cityInputs ⟨2000, 25000, 9⟩ ⟨1, 0⟩ cityOutcome rfl rfl run_simulation_city

/-- Claim C4: for every valid decision the returned satisfaction equals
`clamp(vibe*3.3 + quality*3.3 + ratio*8 - crowdingPenalty + satisfactionDelta,
0, 100)`, and in particular `0 ≤ satisfaction ≤ 100` always holds. -/
theorem claim_C4 (i : Inputs) (venue : VenueOption) (cat : CateringOption)
    (staff : StaffingOption) (risk : RiskOption) (out : Outcome)
    (hv : VENUES i.Venue = some venue) (hc : CATERING i.Catering = some cat)
    (hs : STAFFING i.Staffing = some staff) (hr : RISKS i.Risk = some risk)
    (h : run_simulation i = some out) :
    out.Satisfaction = min 100 (max 0 ((venue.Vibe : ℝ) * 3.3 + (cat.Quality : ℝ) * 3.3 +
        (staff.RatioPerHundred : ℝ) * 8 - crowding_penalty (crowding venue out.Attendance) +
        (risk.SatPenalty : ℝ))) ∧
      0 ≤ out.Satisfaction ∧ out.Satisfaction ≤ 100 := by
  rw [run_simulation_resolve i venue cat staff risk hv hc hs hr, Option.some_inj] at h
  subst h
  refine ⟨?_, ?_, ?_⟩
  · simp only [simulate]
    unfold sat_score sat_pre sat_base
    rfl
  · simp only [simulate]
    unfold sat_score
    exact le_min (by norm_num) (le_max_left 0 _)
  · simp only [simulate]
    unfold sat_score
    exact min_le_left _ _

/-- Claim C4, witness: the satisfaction clamp instantiated at the City Center
scenario (satisfaction 50.5, inside [0, 100]). -/
theorem claim_C4_witness :
    cityOutcome.Satisfaction = min 100 (max 0 ((((9 : ℚ)) : ℝ) * 3.3 + (((6 : ℚ)) : ℝ) * 3.3 +
        (((2 : ℚ)) : ℝ) * 8 -
        crowding_penalty (crowding ⟨2000, 25000, 9⟩ cityOutcome.Attendance) +
        (((0 : ℚ)) : ℝ))) ∧
      0 ≤ cityOutcome.Satisfaction ∧ cityOutcome.Satisfaction ≤ 100 :=
  claim_C4 cityInputs ⟨2000, 25000, 9⟩ ⟨35, 6⟩ ⟨2, 250⟩ ⟨1, 0⟩ cityOutcome
    rfl rfl rfl rfl run_simulation_city

/-- Claim C5: the crowding penalty is a step function of the crowding ratio:
the pre-clamp satisfaction is the base plus the risk delta minus exactly 15
when the ratio strictly exceeds 0.9, and the base plus the risk delta
unchanged when the ratio is at or below 0.9. -/
theorem claim_C5 (venue : VenueOption) (cat : CateringOption)
    (staff : StaffingOption) (risk : RiskOption) (att : ℤ) :
    (0.9 < crowding venue att →
      sat_pre venue cat staff risk att =
        sat_base venue cat staff - 15 + (risk.SatPenalty : ℝ)) ∧
    (crowding venue att ≤ 0.9 →
      sat_pre venue cat staff risk att =
        sat_base venue cat staff + (risk.SatPenalty : ℝ)) := by
  constructor
  · intro hgt
    unfold sat_pre crowding_penalty
    rw [if_pos hgt]
  · intro hle
    unfold sat_pre crowding_penalty
    rw [if_neg (not_lt.mpr hle)]
    ring

/-- Claim C5, witness: at City Center with attendance 2000 the ratio is 1 and
the penalty applies; at attendance 1800 the ratio is exactly 0.9 and no
penalty applies. -/
theorem claim_C5_witness :
    sat_pre ⟨2000, 25000, 9⟩ ⟨35, 6⟩ ⟨2, 250⟩ ⟨1, 0⟩ 2000 =
        sat_base ⟨2000, 25000, 9⟩ ⟨35, 6⟩ ⟨2, 250⟩ - 15 + (((0 : ℚ)) : ℝ) ∧
      sat_pre ⟨2000, 25000, 9⟩ ⟨35, 6⟩ ⟨2, 250⟩ ⟨1, 0⟩ 1800 =
        sat_base ⟨2000, 25000, 9⟩ ⟨35, 6⟩ ⟨2, 250⟩ + (((0 : ℚ)) : ℝ) :=
  ⟨(claim_C5 ⟨2000, 25000, 9⟩ ⟨35, 6⟩ ⟨2, 250⟩ ⟨1, 0⟩ 2000).1
      (by unfold crowding; rw [if_pos (by norm_num)]; push_cast; norm_num),
    (claim_C5 ⟨2000, 25000, 9⟩ ⟨35, 6⟩ ⟨2, 250⟩ ⟨1, 0⟩ 1800).2
      (by unfold crowding; rw [if_pos (by norm_num)]; push_cast; norm_num)⟩

/-- Claim C6: evaluation fails if and only if one of the four supplied labels
is absent from its reference table (the failure happens at label resolution,
before any outcome is produced), and any decision whose four labels all
resolve fully succeeds with the complete outcome of the resolved records. -/
theorem claim_C6 (i : Inputs) :
    (run_simulation i = none ↔ VENUES i.Venue = none ∨ CATERING i.Catering = none ∨
        STAFFING i.Staffing = none ∨ RISKS i.Risk = none) ∧
      ∀ (venue : VenueOption) (cat : CateringOption) (staff : StaffingOption)
        (risk : RiskOption), VENUES i.Venue = some venue →
        CATERING i.Catering = some cat → STAFFING i.Staffing = some staff →
        RISKS i.Risk = some risk →
        run_simulation i = some (simulate venue cat staff risk i.Price i.Marketing) :=
  ⟨run_simulation_none_iff i,
    fun venue cat staff risk hv hc hs hr =>
      run_simulation_resolve i venue cat staff risk hv hc hs hr⟩

/-- Claim C6, witness: the City Center decision resolves and succeeds, while a
decision with the unknown venue label "Garage" fails. -/
theorem claim_C6_witness :
    run_simulation cityInputs =
        some (simulate ⟨2000, 25000, 9⟩ ⟨35, 6⟩ ⟨2, 250⟩ ⟨1, 0⟩
          cityInputs.Price cityInputs.Marketing) ∧
      run_simulation badInputs = none :=
  ⟨(claim_C6 cityInputs).2 ⟨2000, 25000, 9⟩ ⟨35, 6⟩ ⟨2, 250⟩ ⟨1, 0⟩ rfl rfl rfl rfl,
    (claim_C6 badInputs).1.mpr (Or.inl rfl)⟩

/-- Claim C7: holding the marketing budget fixed, base demand is monotonically
non-increasing in the price: for prices `0 ≤ p1 ≤ p2`,
`base_demand p2 m ≤ base_demand p1 m`. -/
theorem claim_C7 (m p1 p2 : ℝ) (h0 : 0 ≤ p1) (h : p1 ≤ p2) :
    base_demand p2 m ≤ base_demand p1 m := by
  unfold base_demand
  apply max_le_max le_rfl
  linarith

/-- Claim C7, witness: raising the price from 0 to 1 does not raise base
demand at marketing 0. -/
theorem claim_C7_witness : base_demand 1 0 ≤ base_demand 0 0 :=
  claim_C7 0 0 1 le_rfl (by norm_num)

/-- Claim C8: holding the price fixed, base demand is monotonically
non-decreasing in the marketing budget: for budgets `0 ≤ m1 ≤ m2`,
`base_demand p m1 ≤ base_demand p m2`. -/
theorem claim_C8 (p m1 m2 : ℝ) (h0 : 0 ≤ m1) (h : m1 ≤ m2) :
    base_demand p m1 ≤ base_demand p m2 := by
  unfold base_demand
  apply max_le_max le_rfl
  have hs := Real.sqrt_le_sqrt h
  linarith

/-- Claim C8, witness: raising the marketing budget from 0 to 1 does not lower
base demand at price 0. -/
theorem claim_C8_witness : base_demand 0 0 ≤ base_demand 0 1 :=
  claim_C8 0 0 1 le_rfl (by norm_num)

/-- Claim C9: for every valid decision,
`staffCount = ceil((attendance / 100) * ratio)` and
`staffCost = staffCount * costPerStaff`; moreover attendance 1 with a staffing
ratio of 1 yields a staff count of 1 (the ceiling of 0.01), not 0. -/
theorem claim_C9 (i : Inputs) (staff : StaffingOption) (out : Outcome)
    (hs : STAFFING i.Staffing = some staff) (h : run_simulation i = some out) :
    out.StaffCost = num_staff out.Attendance staff * (staff.CostPer : ℝ) ∧
      num_staff out.Attendance staff =
        ((⌈(out.Attendance : ℝ) / 100 * (staff.RatioPerHundred : ℝ)⌉ : ℤ) : ℝ) ∧
      ∀ st : StaffingOption, st.RatioPerHundred = 1 → num_staff 1 st = 1 := by
  refine ⟨?_, rfl, ?_⟩
  · unfold run_simulation at h
    split at h
    · rename_i v c s r hv2 hc2 hs2 hr2
      rw [hs2, Option.some_inj] at hs
      subst hs
      rw [Option.some_inj] at h
      subst h
      simp only [simulate]
      unfold staff_cost
      rfl
    · exact absurd h (by simp)
  · intro st hst
    unfold num_staff
    rw [hst]
    rw [show (⌈((1 : ℤ) : ℝ) / 100 * (((1 : ℚ)) : ℝ)⌉ : ℤ) = 1 from
      Int.ceil_eq_iff.mpr (by constructor <;> push_cast <;> norm_num)]
    norm_num

/-- Claim C9, witness: the staffing formulas instantiated at the Grand Hall /
Skeleton Crew decision with attendance 1, where the staff count is 1. -/
theorem claim_C9_witness :
    tinyOutcome.StaffCost = num_staff tinyOutcome.Attendance ⟨1, 200⟩ * (((200 : ℚ)) : ℝ) ∧
      num_staff tinyOutcome.Attendance ⟨1, 200⟩ =
        ((⌈(tinyOutcome.Attendance : ℝ) / 100 * (((1 : ℚ)) : ℝ)⌉ : ℤ) : ℝ) ∧
      ∀ st : StaffingOption, st.RatioPerHundred = 1 → num_staff 1 st = 1 :=
  claim_C9 tinyInputs ⟨1, 200⟩ tinyOutcome rfl run_simulation_tiny

/-- Claim C10: for every valid decision whose risk-adjusted demand is below 1,
attendance is 0, evaluate still succeeds, revenue, catering cost, staff count
and staff cost are all 0, the total cost is the venue's fixed cost plus the
marketing budget, and the profit is the negation of that sum. -/
theorem claim_C10 (i : Inputs) (venue : VenueOption) (cat : CateringOption)
    (staff : StaffingOption) (risk : RiskOption) (out : Outcome)
    (hv : VENUES i.Venue = some venue) (hc : CATERING i.Catering = some cat)
    (hs : STAFFING i.Staffing = some staff) (hr : RISKS i.Risk = some risk)
    (h : run_simulation i = some out)
    (hlow : risk_demand risk i.Price i.Marketing < 1) :
    out.Attendance = 0 ∧ out.Revenue = 0 ∧ out.CateringCost = 0 ∧
      num_staff out.Attendance staff = 0 ∧ out.StaffCost = 0 ∧
      out.TotalCost = (venue.FixedCost : ℝ) + i.Marketing ∧
      out.Profit = -((venue.FixedCost : ℝ) + i.Marketing) := by
  rw [run_simulation_resolve i venue cat staff risk hv hc hs hr, Option.some_inj] at h
  subst h
  have hrd : 0 ≤ risk_demand risk i.Price i.Marketing :=
    risk_demand_nonneg risk _ _ (RISKS_facts i.Risk risk hr)
  have hcap : (1 : ℝ) ≤ (venue.Capacity : ℝ) := by
    exact_mod_cast (VENUES_facts i.Venue venue hv).1
  have hatt : attendance venue risk i.Price i.Marketing = 0 := by
    rw [attendance_of_le_capacity venue risk i.Price i.Marketing
      (le_trans (le_of_lt hlow) hcap) hrd]
    rw [Int.floor_eq_iff]
    push_cast
    exact ⟨hrd, by linarith⟩
  refine ⟨?_, ?_, ?_, ?_, ?_, ?_, ?_⟩ <;>
    simp only [simulate, hatt] <;>
      norm_num [total_cost, catering_cost, staff_cost, num_staff_zero]

/-- Claim C10, witness: the zero-attendance conclusions instantiated at the
Grand Hall decision with price 600 and no marketing (risk-adjusted demand 0):
the fixed cost of 5000 is still charged and the profit is -5000. -/
theorem claim_C10_witness :
    zeroOutcome.Attendance = 0 ∧ zeroOutcome.Revenue = 0 ∧
      zeroOutcome.CateringCost = 0 ∧
      num_staff zeroOutcome.Attendance ⟨1, 200⟩ = 0 ∧ zeroOutcome.StaffCost = 0 ∧
      zeroOutcome.TotalCost = (((5000 : ℚ)) : ℝ) + zeroInputs.Marketing ∧
      zeroOutcome.Profit = -((((5000 : ℚ)) : ℝ) + zeroInputs.Marketing) :=
  claim_C10 zeroInputs ⟨500, 5000, 8⟩ ⟨15, 2⟩ ⟨1, 200⟩ ⟨1, 0⟩ zeroOutcome
    rfl rfl rfl rfl run_simulation_zero
    (by simp only [zeroInputs]; rw [risk_demand_zero]; norm_num)

end BestManager
